import Mathlib

/-!
Verification development for the rsync storage plugin
(src/snakemake_storage_plugin_rsync/__init__.py).

The remote side reachable from the local host is modelled as a flat finite
association list from path strings to filesystem entries.  A symlink entry
carries its own (lstat) metadata and a target path; following a symlink is
bounded by a fuel argument, so a cycle or a dangling chain behaves like the
OSError that os.stat raises in that situation.  Modification times are
modelled as integers (the code only stores and compares them), sizes as
naturals.  Fallible operations return Except PyError.
-/

/-- A stat result: st_mtime and st_size, the only fields the plugin reads. -/
structure FileStat where
  st_mtime : Int
  st_size : Nat
deriving DecidableEq, Repr

/-- One entry of the remote filesystem: a regular file, a directory, or a
symlink.  The FileStat carried by an entry is what a non-following stat of
that path reports; for a symlink the target is the path the link points to. -/
inductive FSEntry where
| file (st : FileStat)
| dir (st : FileStat)
| symlink (st : FileStat) (target : String)
deriving DecidableEq, Repr

/-- The remote filesystem: an association list from path strings to entries. -/
def FS := List (String × FSEntry)

/-- The stat data an entry itself carries (what a non-following stat sees). -/
def FSEntry.stat : FSEntry → FileStat
| .file st => st
| .dir st => st
| .symlink st _ => st

/-- Errors surfaced by the embedded code paths.  oserror models OSError from
os.stat; nameError models a NameError from looking up an unbound module-level
name; workflowError models the WorkflowError the code intends to raise. -/
inductive PyError where
| oserror (msg : String)
| nameError (msg : String)
| workflowError (msg : String)
deriving DecidableEq, Repr

/-- Follow symlinks from a path to the final non-symlink entry, with fuel
bounding the chain length.  none models OSError (ENOENT or ELOOP). -/
def resolveEntry : Nat → FS → String → Option FSEntry
| 0, _, _ => none
| Nat.succ fuel, fs, p =>
  match List.lookup p fs with
  | some (FSEntry.symlink _ tgt) => resolveEntry fuel fs tgt
  | some e => some e
  | none => none

/-- Fuel that suffices for any cycle-free symlink chain in fs. -/
def fsFuel (fs : FS) : Nat := List.length fs + 1

/-- os.stat(path, follow_symlinks=True): stat of the resolved entry. -/
def statFollowFS (fs : FS) (p : String) : Except PyError FileStat :=
  match resolveEntry (fsFuel fs) fs p with
  | some e => Except.ok e.stat
  | none => Except.error (PyError.oserror ("No such file or directory: " ++ p))

/-- os.stat(path, follow_symlinks=False): stat of the entry at the path
itself, not following a final symlink. -/
def statNoFollowFS (fs : FS) (p : String) : Except PyError FileStat :=
  match List.lookup p fs with
  | some e => Except.ok e.stat
  | none => Except.error (PyError.oserror ("No such file or directory: " ++ p))

/-- Path.exists(): follows symlinks, returns False instead of raising. -/
def pathExistsFS (fs : FS) (p : String) : Bool :=
  (resolveEntry (fsFuel fs) fs p).isSome

/-- Presence of the path itself without following a final symlink
(os.path.lexists semantics): true also for a dangling symlink. -/
def lexistsFS (fs : FS) (p : String) : Bool :=
  (List.lookup p fs).isSome

/-- Path.is_dir(): follows symlinks, False on error. -/
def isDirFS (fs : FS) (p : String) : Bool :=
  match resolveEntry (fsFuel fs) fs p with
  | some (FSEntry.dir _) => true
  | _ => false

/-- Path.is_symlink(): the path itself is a symlink entry (never follows). -/
def isSymlinkFS (fs : FS) (p : String) : Bool :=
  match List.lookup p fs with
  | some (FSEntry.symlink _ _) => true
  | _ => false

/-- StorageObject._timestamp_path: query_path / ".snakemake_timestamp". -/
def timestampPath (p : String) : String := p ++ "/.snakemake_timestamp"

/-- StorageObject._stat_to_mtime(stat): if query_path is a directory (is_dir
follows symlinks) and the sentinel timestamp file exists (Path.exists, which
follows symlinks), return the sentinel mtime from a non-following stat of the
sentinel path; otherwise return st_mtime of the given stat. -/
def stat_to_mtimeFS (fs : FS) (p : String) (st : FileStat) : Except PyError Int :=
  if isDirFS fs p then
    if pathExistsFS fs (timestampPath p) then
      (statNoFollowFS fs (timestampPath p)).map (fun s => s.st_mtime)
    else
      Except.ok st.st_mtime
  else
    Except.ok st.st_mtime

/-- StorageObject.mtime(): _stat_to_mtime applied to a non-following stat of
query_path. -/
def mtimeFS (fs : FS) (p : String) : Except PyError Int :=
  match statNoFollowFS fs p with
  | Except.error e => Except.error e
  | Except.ok st => stat_to_mtimeFS fs p st

/-- StorageObject.exists(): Path.exists on query_path (follows symlinks). -/
def objExists (fs : FS) (p : String) : Bool := pathExistsFS fs p

/-- StorageObject.size(): st_size of a following stat of query_path. -/
def sizeFS (fs : FS) (p : String) : Except PyError Nat :=
  (statFollowFS fs p).map (fun s => s.st_size)

/-- The shared inventory cache (IOCacheStorageInterface): three parallel
mappings keyed by the cache key.  Python dict assignment is modelled as a
cons onto an association list, so List.lookup sees the newest binding; the
Mtime(storage=...) wrapper carries a single value and is inlined. -/
structure IOCacheStorageInterface where
  exists_in_storage : List (String × Bool)
  mtime : List (String × Int)
  size : List (String × Nat)
deriving DecidableEq, Repr

/-- The cache key.  Modelled from the spec: CacheKey is a stable identifier
derived from a Query, deterministic and collision-free; cache_key() itself is
defined by the storage interface package, not in this repository, so it is
modelled as the identity on the object path. -/
def cache_key (p : String) : String := p

/-- The probing steps inventory() performs, abstracted so that theorems can
quantify over arbitrary probe outcomes (including transient failures).
existsCheck models self.exists(); statFollowRes and statNoFollowRes model
self._stat(follow_symlinks=True/False); isSymlink models
query_path.is_symlink() (returns a Bool, never raises); statToMtime models
self._stat_to_mtime applied to a given stat. -/
structure Prober where
  existsCheck : Except PyError Bool
  statFollowRes : Except PyError FileStat
  isSymlink : Bool
  statNoFollowRes : Except PyError FileStat
  statToMtime : FileStat → Except PyError Int

/-- StorageObject.inventory(cache): returns the cache after the call paired
with the exception propagated, if any.  The statement order follows the
source: early return when the key is already present; exists() false writes
only exists_in_storage[key] = False; otherwise stat (following), lstat (the
same stat unless query_path is a symlink, in which case a non-following
stat), then the three writes mtime, size, exists_in_storage.  An exception at
any probing step leaves the cache exactly as it was, because the first write
on the existing-object path happens only after every probe has succeeded. -/
def inventory (P : Prober) (key : String) (cache : IOCacheStorageInterface) :
    IOCacheStorageInterface × Option PyError :=
  if (List.lookup key cache.exists_in_storage).isSome then
    (cache, none)
  else
    match P.existsCheck with
    | Except.error e => (cache, some e)
    | Except.ok false =>
      ({ cache with exists_in_storage := (key, false) :: cache.exists_in_storage }, none)
    | Except.ok true =>
      match P.statFollowRes with
      | Except.error e => (cache, some e)
      | Except.ok stat =>
        match (if P.isSymlink then P.statNoFollowRes else Except.ok stat) with
        | Except.error e => (cache, some e)
        | Except.ok lstat =>
          match P.statToMtime lstat with
          | Except.error e => (cache, some e)
          | Except.ok m =>
            ({ cache with
                mtime := (key, m) :: cache.mtime,
                size := (key, stat.st_size) :: cache.size,
                exists_in_storage := (key, true) :: cache.exists_in_storage }, none)

/-- The prober an object with query_path p over filesystem fs actually uses:
each field is the corresponding filesystem operation from the source. -/
def fsProber (fs : FS) (p : String) : Prober :=
  { existsCheck := Except.ok (objExists fs p),
    statFollowRes := statFollowFS fs p,
    isSymlink := isSymlinkFS fs p,
    statNoFollowRes := statNoFollowFS fs p,
    statToMtime := stat_to_mtimeFS fs p }

/-- inventory() of the object at path p over filesystem fs. -/
def inventoryFS (fs : FS) (p : String) (cache : IOCacheStorageInterface) :
    IOCacheStorageInterface × Option PyError :=
  inventory (fsProber fs p) (cache_key p) cache

/-- The names bound at module level in
src/snakemake_storage_plugin_rsync/__init__.py: the imported names (lines
1-30) plus the two classes the module defines.  Neither "WorkflowError" nor
"get_constant_prefix" is among them, although both are referenced. -/
def moduleGlobals : List String :=
  ["os", "Path", "shutil", "subprocess", "dataclass", "field",
   "Any", "Iterable", "Optional", "List", "urlparse", "sysrsync",
   "StorageProviderSettingsBase", "StorageProviderBase",
   "StorageQueryValidationResult", "ExampleQuery", "Operation", "QueryType",
   "StorageObjectRead", "StorageObjectWrite", "StorageObjectGlob",
   "StorageObjectTouch", "retry_decorator", "IOCacheStorageInterface",
   "Mtime", "lutime", "StorageProvider", "StorageObject"]

/-- The observable outcome of the external rsync process: its exit code and
the captured combined output (stdout=PIPE, stderr=STDOUT merges the two). -/
structure CmdResult where
  exitcode : Nat
  output : String
deriving DecidableEq, Repr

/-- StorageObject._run_cmd(cmd): subprocess.run with check=True raises
CalledProcessError on a nonzero exit; the handler then evaluates the name
WorkflowError in the module namespace.  If the name were bound the code would
raise WorkflowError(e.stdout.decode()); since name lookup of an unbound
global raises NameError, that NameError propagates instead. -/
def runCmd (globals : List String) (res : CmdResult) : Except PyError Unit :=
  if res.exitcode = 0 then
    Except.ok ()
  else if globals.contains "WorkflowError" then
    Except.error (PyError.workflowError res.output)
  else
    Except.error (PyError.nameError "name WorkflowError is not defined")

/-- StorageObject.retrieve_object(): builds the rsync command via
sysrsync.get_rsync_command (opaque here) and hands its completed-process
result to the command runner. -/
def retrieve_object (globals : List String) (res : CmdResult) : Except PyError Unit :=
  runCmd globals res

/-- StorageObject.store_object(): the body is the bare Ellipsis literal, so
the call performs no filesystem change and invokes no external command;
modelled as returning the remote filesystem unchanged together with the
(empty) list of external commands invoked. -/
def store_object (fs : FS) : FS × List String := (fs, [])

/-- StorageObject.remove(): the body is the bare Ellipsis literal, so the
call performs no filesystem change and invokes no external command. -/
def removeObject (fs : FS) : FS × List String := (fs, [])

/-- The opening curly brace character, written by code point to keep brace
characters out of literals. -/
def lbraceChar : Char := Char.ofNat 123

/-- Modelled from the spec: get_constant_prefix (imported from the executor
plugin interface package, not part of this repository) returns the constant
wildcard-free prefix of the query before the first wildcard placeholder,
i.e. everything before the first opening brace. -/
def get_constant_prefixModel (q : String) : String :=
  q.takeWhile (fun c => c != lbraceChar)

/-- Every path in fs strictly below directory d (Path.rglob("*") over the
flat model), rendered as strings. -/
def rglobFS (fs : FS) (d : String) : List String :=
  (fs.map Prod.fst).filter (fun k => String.isPrefixOf (d ++ "/") k)

/-- StorageObject.list_candidate_matches(): the body first evaluates the
module-level name get_constant_prefix on self.query (the raw query string,
scheme included); an unbound name raises NameError before anything else
runs.  Were the name bound, the code would test whether the prefix is a
directory and return either the recursive directory listing or the
one-element tuple holding the prefix itself. -/
def list_candidate_matches (globals : List String) (fs : FS) (query : String) :
    Except PyError (List String) :=
  if globals.contains "get_constant_prefix" then
    let pfx := get_constant_prefixModel query
    if isDirFS fs pfx then
      Except.ok (rglobFS fs pfx)
    else
      Except.ok [pfx]
  else
    Except.error (PyError.nameError "name get_constant_prefix is not defined")

/-! Helper lemmas shared by several claims. -/

/-- A successful following stat means Path.exists is true. -/
theorem pathExists_of_statFollow (fs : FS) (p : String) (st : FileStat)
    (h : statFollowFS fs p = Except.ok st) : pathExistsFS fs p = true := by
  unfold statFollowFS at h
  unfold pathExistsFS
  cases hr : resolveEntry (fsFuel fs) fs p <;> simp [hr] at h ⊢

/-- Path.exists true implies the entry itself is present in the listing
(resolution starts from a successful lookup of the path itself). -/
theorem lookup_isSome_of_pathExists (fs : FS) (p : String)
    (h : pathExistsFS fs p = true) : (List.lookup p fs).isSome = true := by
  cases hl : List.lookup p fs with
  | some e => rfl
  | none =>
    unfold pathExistsFS fsFuel at h
    simp [resolveEntry, hl] at h

/-! Demonstration objects used by the witness theorems. -/

/-- An empty cache. -/
def cacheEmpty : IOCacheStorageInterface := { exists_in_storage := [], mtime := [], size := [] }

/-- A cache whose key "k" is already populated as existing. -/
def cacheDemo : IOCacheStorageInterface :=
  { exists_in_storage := [("k", true)], mtime := [("k", 7)], size := [("k", 3)] }

/-- A prober whose probes all succeed with fixed values. -/
def proberDemo : Prober :=
  { existsCheck := Except.ok true,
    statFollowRes := Except.ok { st_mtime := 7, st_size := 3 },
    isSymlink := false,
    statNoFollowRes := Except.ok { st_mtime := 7, st_size := 3 },
    statToMtime := fun st => Except.ok st.st_mtime }

/-- A prober whose existence check fails with a transient OSError. -/
def proberFail : Prober :=
  { existsCheck := Except.error (PyError.oserror "transient probe failure"),
    statFollowRes := Except.ok { st_mtime := 7, st_size := 3 },
    isSymlink := false,
    statNoFollowRes := Except.ok { st_mtime := 7, st_size := 3 },
    statToMtime := fun st => Except.ok st.st_mtime }

/-- Claim C2 (confirmed): when the cache key is already present in
exists_in_storage (whether bound to true or false), inventory() returns at
once: the result is the unchanged cache with no error, for EVERY prober —
the result does not depend on any probe outcome, which is the precise sense
in which no probing of the remote object is performed. -/
theorem C2_inventory_idempotent (P : Prober) (key : String)
    (cache : IOCacheStorageInterface)
    (h : (List.lookup key cache.exists_in_storage).isSome = true) :
    inventory P key cache = (cache, none) := by
  simp [inventory, h]

/-- Witness for C2 at a concrete populated cache and a concrete prober. -/
theorem C2_witness :
    (List.lookup "k" cacheDemo.exists_in_storage).isSome = true ∧
    inventory proberDemo "k" cacheDemo = (cacheDemo, none) :=
  ⟨rfl, C2_inventory_idempotent proberDemo "k" cacheDemo rfl⟩

/-- Claim C3 (confirmed): for an object that does not exist and whose key has
no prior cache entry, inventory() records exists_in_storage[key] = false and
leaves the mtime and size mappings untouched (the result record keeps them
verbatim). -/
theorem C3_nonexisting_writes_only_exists (fs : FS) (p : String)
    (cache : IOCacheStorageInterface)
    (h1 : List.lookup (cache_key p) cache.exists_in_storage = none)
    (h2 : objExists fs p = false) :
    inventoryFS fs p cache =
      ({ cache with exists_in_storage := (cache_key p, false) :: cache.exists_in_storage },
       none) := by
  simp [inventoryFS, inventory, fsProber, h1, h2]

/-- Witness for C3: an empty filesystem and an empty cache. -/
theorem C3_witness :
    List.lookup (cache_key "x") cacheEmpty.exists_in_storage = none ∧
    objExists [] "x" = false ∧
    inventoryFS [] "x" cacheEmpty =
      ({ cacheEmpty with exists_in_storage := [(cache_key "x", false)] }, none) :=
  ⟨rfl, rfl, C3_nonexisting_writes_only_exists [] "x" cacheEmpty rfl rfl⟩

/-- Claim C5 (confirmed): with no prior entry for the key, if inventory()
propagates an error (any probing step failed), the cache it leaves behind is
exactly the cache it started from — no partial write for that key. -/
theorem C5_all_or_nothing (P : Prober) (key : String)
    (cache : IOCacheStorageInterface) (e : PyError)
    (h1 : List.lookup key cache.exists_in_storage = none)
    (h2 : (inventory P key cache).2 = some e) :
    (inventory P key cache).1 = cache := by
  unfold inventory at h2 ⊢
  rw [h1] at h2 ⊢
  simp only [Option.isSome_none, Bool.false_eq_true, if_false] at h2 ⊢
  cases hE : P.existsCheck with
  | error eE => simp [hE]
  | ok b =>
    cases b with
    | false => simp [hE] at h2
    | true =>
      cases hS : P.statFollowRes with
      | error eS => simp [hE, hS]
      | ok stat =>
        cases hL : (if P.isSymlink then P.statNoFollowRes else Except.ok stat) with
        | error eL => simp [hE, hS, hL]
        | ok lstat =>
          cases hM : P.statToMtime lstat with
          | error eM => simp [hE, hS, hL, hM]
          | ok m => simp [hE, hS, hL, hM] at h2

/-- Witness for C5: a prober whose existence check fails transiently, an
empty cache; the error propagates and the cache is unchanged. -/
theorem C5_witness :
    List.lookup "k" cacheEmpty.exists_in_storage = none ∧
    (inventory proberFail "k" cacheEmpty).2 = some (PyError.oserror "transient probe failure") ∧
    (inventory proberFail "k" cacheEmpty).1 = cacheEmpty :=
  ⟨rfl, rfl,
   C5_all_or_nothing proberFail "k" cacheEmpty (PyError.oserror "transient probe failure") rfl rfl⟩

/-- Claim C6 (code_bug): on any nonzero exit of the external command,
retrieve_object does not raise the intended WorkflowError carrying the
captured output — the module never imports WorkflowError, so the raise in
the except handler itself fails with a NameError whose message is fixed and
does not carry the captured output. -/
theorem C6_runCmd_raises_nameError (res : CmdResult) (h : ¬ res.exitcode = 0) :
    retrieve_object moduleGlobals res =
      Except.error (PyError.nameError "name WorkflowError is not defined") := by
  have hc : "WorkflowError" ∉ moduleGlobals := by decide
  simp [retrieve_object, runCmd, h, hc]

/-- Witness for C6: rsync exits 1 with captured output; the result is the
NameError, not a WorkflowError containing the output. -/
theorem C6_witness :
    ¬ (CmdResult.mk 1 "rsync: connection unexpectedly closed").exitcode = 0 ∧
    retrieve_object moduleGlobals (CmdResult.mk 1 "rsync: connection unexpectedly closed") =
      Except.error (PyError.nameError "name WorkflowError is not defined") :=
  ⟨by decide,
   C6_runCmd_raises_nameError (CmdResult.mk 1 "rsync: connection unexpectedly closed") (by decide)⟩

/-- Claim C7 (code_bug): store_object and remove are bare Ellipsis stubs:
for every remote filesystem they leave it unchanged and invoke no external
command at all, so no push, no delete, and no error wrapping ever happens. -/
theorem C7_store_remove_are_noops :
    ∀ fs : FS, store_object fs = (fs, []) ∧ removeObject fs = (fs, []) :=
  fun _ => ⟨rfl, rfl⟩

/-- Claim C8 (code_bug): every call of list_candidate_matches evaluates the
unbound module-level name get_constant_prefix and therefore raises NameError
before computing any prefix or candidate, for every filesystem and query. -/
theorem C8_list_candidates_raises (fs : FS) (q : String) :
    list_candidate_matches moduleGlobals fs q =
      Except.error (PyError.nameError "name get_constant_prefix is not defined") := by
  have hc : "get_constant_prefix" ∉ moduleGlobals := by decide
  simp [list_candidate_matches, hc]

/-- Claim C9 (code_bug): no call of list_candidate_matches ever returns a
sequence at all (restartable or otherwise): every call ends in an error. -/
theorem C9_no_sequence_returned (fs : FS) (q : String) :
    ∃ e : PyError, list_candidate_matches moduleGlobals fs q = Except.error e := by
  have hc : "get_constant_prefix" ∉ moduleGlobals := by decide
  exact ⟨PyError.nameError "name get_constant_prefix is not defined",
    by simp [list_candidate_matches, hc]⟩

/-- Claim C10 (confirmed): for a dangling symlink the existence check follows
the link and reports false, so inventory() records exists_in_storage = false
and writes neither mtime nor size, even though the non-following stat of the
link itself succeeds with the link's own metadata. -/
theorem C10_dangling_symlink (fs : FS) (p : String) (st : FileStat)
    (tgt : String) (cache : IOCacheStorageInterface)
    (h1 : List.lookup p fs = some (FSEntry.symlink st tgt))
    (h2 : pathExistsFS fs p = false)
    (h3 : List.lookup (cache_key p) cache.exists_in_storage = none) :
    objExists fs p = false ∧
    statNoFollowFS fs p = Except.ok st ∧
    inventoryFS fs p cache =
      ({ cache with exists_in_storage := (cache_key p, false) :: cache.exists_in_storage },
       none) := by
  refine ⟨h2, by simp [statNoFollowFS, h1, FSEntry.stat], ?_⟩
  simp [inventoryFS, inventory, fsProber, objExists, h2, h3]

/-- A remote filesystem holding one dangling symlink. -/
def fsDangling : FS := [("lnk", FSEntry.symlink { st_mtime := 50, st_size := 1 } "missing")]

/-- Witness for C10 at the dangling symlink filesystem. -/
theorem C10_witness :
    List.lookup "lnk" fsDangling = some (FSEntry.symlink { st_mtime := 50, st_size := 1 } "missing") ∧
    pathExistsFS fsDangling "lnk" = false ∧
    List.lookup (cache_key "lnk") cacheEmpty.exists_in_storage = none ∧
    (objExists fsDangling "lnk" = false ∧
     statNoFollowFS fsDangling "lnk" = Except.ok { st_mtime := 50, st_size := 1 } ∧
     inventoryFS fsDangling "lnk" cacheEmpty =
       ({ cacheEmpty with exists_in_storage := [(cache_key "lnk", false)] }, none)) :=
  ⟨rfl, by decide, rfl,
   C10_dangling_symlink fsDangling "lnk" { st_mtime := 50, st_size := 1 } "missing" cacheEmpty
     rfl (by decide) rfl⟩

/-- The mtime operation as claim C1 words it, for comparison with the code:
identical to mtimeFS except that the sentinel PRESENCE is checked without
following symlinks (the code checks it with Path.exists, which follows). -/
def mtimeClaimFS (fs : FS) (p : String) : Except PyError Int :=
  match statNoFollowFS fs p with
  | Except.error e => Except.error e
  | Except.ok st =>
    if isDirFS fs p then
      if lexistsFS fs (timestampPath p) then
        (statNoFollowFS fs (timestampPath p)).map (fun s => s.st_mtime)
      else
        Except.ok st.st_mtime
    else
      Except.ok st.st_mtime

/-- A directory (mtime 100) whose sentinel timestamp file is a dangling
symlink (own mtime 200): present without following, absent when followed. -/
def fsC1 : FS :=
  [("d", FSEntry.dir { st_mtime := 100, st_size := 0 }),
   ("d/.snakemake_timestamp", FSEntry.symlink { st_mtime := 200, st_size := 5 } "d/gone")]

/-- Counterexample to claim C1 as stated: on fsC1 the sentinel is present
under a non-following check, so the claim demands the sentinel mtime 200,
but the code checks presence with Path.exists (which follows the dangling
link and reports absence) and returns the directory mtime 100. -/
theorem C1_counterexample :
    lexistsFS fsC1 (timestampPath "d") = true ∧
    mtimeClaimFS fsC1 "d" = Except.ok 200 ∧
    mtimeFS fsC1 "d" = Except.ok 100 ∧
    ((200 : Int) = 100 → False) := by
  refine ⟨rfl, rfl, rfl, by decide⟩

/-- Claim C1 as amended (corrected): the sentinel presence check FOLLOWS
symlinks (Path.exists); when the object is a directory and the sentinel is
present under that following check, mtime() returns the sentinel mtime read
by a non-following stat of the sentinel path; in every other case it returns
the mtime of the non-following stat of query_path. -/
theorem C1_mtime_amended (fs : FS) (p : String) (st : FileStat)
    (h : statNoFollowFS fs p = Except.ok st) :
    (isDirFS fs p = true ∧ pathExistsFS fs (timestampPath p) = true ∧
      ∃ sst : FileStat, statNoFollowFS fs (timestampPath p) = Except.ok sst ∧
        mtimeFS fs p = Except.ok sst.st_mtime) ∨
    ((isDirFS fs p = false ∨ pathExistsFS fs (timestampPath p) = false) ∧
      mtimeFS fs p = Except.ok st.st_mtime) := by
  cases hd : isDirFS fs p with
  | false =>
    right
    exact ⟨Or.inl rfl, by simp [mtimeFS, h, stat_to_mtimeFS, hd]⟩
  | true =>
    cases hex : pathExistsFS fs (timestampPath p) with
    | false =>
      right
      exact ⟨Or.inr rfl, by simp [mtimeFS, h, stat_to_mtimeFS, hd, hex]⟩
    | true =>
      left
      have hsome := lookup_isSome_of_pathExists fs (timestampPath p) hex
      obtain ⟨e, he⟩ := Option.isSome_iff_exists.mp hsome
      refine ⟨rfl, rfl, e.stat, by simp [statNoFollowFS, he], ?_⟩
      simp only [mtimeFS, h]
      simp [stat_to_mtimeFS, hd, hex, statNoFollowFS, he, Except.map]

/-- A directory (mtime 100) holding a regular sentinel file (mtime 200). -/
def fsC1W : FS :=
  [("d2", FSEntry.dir { st_mtime := 100, st_size := 0 }),
   ("d2/.snakemake_timestamp", FSEntry.file { st_mtime := 200, st_size := 4 })]

/-- Witness for the amended C1 at a directory with a regular sentinel. -/
theorem C1_witness :
    statNoFollowFS fsC1W "d2" = Except.ok { st_mtime := 100, st_size := 0 } ∧
    ((isDirFS fsC1W "d2" = true ∧ pathExistsFS fsC1W (timestampPath "d2") = true ∧
      ∃ sst : FileStat, statNoFollowFS fsC1W (timestampPath "d2") = Except.ok sst ∧
        mtimeFS fsC1W "d2" = Except.ok sst.st_mtime) ∨
    ((isDirFS fsC1W "d2" = false ∨ pathExistsFS fsC1W (timestampPath "d2") = false) ∧
      mtimeFS fsC1W "d2" = Except.ok (100 : Int))) :=
  ⟨rfl, C1_mtime_amended fsC1W "d2" { st_mtime := 100, st_size := 0 } rfl⟩

/-- Claim C4 (confirmed): for an existing object, when query_path is itself a
symlink the mtime written to the cache is computed from the non-following
stat of the link (its own FileStat, the one a symlink entry carries), while
the size written comes from the following stat; for an existing non-symlink
object both come from the same following stat. -/
theorem C4_symlink_mtime_source :
    (∀ (fs : FS) (p : String) (cache : IOCacheStorageInterface) (st : FileStat)
       (tgt : String) (stF : FileStat) (m : Int),
      List.lookup (cache_key p) cache.exists_in_storage = none →
      List.lookup p fs = some (FSEntry.symlink st tgt) →
      statFollowFS fs p = Except.ok stF →
      stat_to_mtimeFS fs p st = Except.ok m →
      inventoryFS fs p cache =
        ({ cache with
            mtime := (cache_key p, m) :: cache.mtime,
            size := (cache_key p, stF.st_size) :: cache.size,
            exists_in_storage := (cache_key p, true) :: cache.exists_in_storage }, none)) ∧
    (∀ (fs : FS) (p : String) (cache : IOCacheStorageInterface) (stF : FileStat) (m : Int),
      List.lookup (cache_key p) cache.exists_in_storage = none →
      isSymlinkFS fs p = false →
      statFollowFS fs p = Except.ok stF →
      stat_to_mtimeFS fs p stF = Except.ok m →
      inventoryFS fs p cache =
        ({ cache with
            mtime := (cache_key p, m) :: cache.mtime,
            size := (cache_key p, stF.st_size) :: cache.size,
            exists_in_storage := (cache_key p, true) :: cache.exists_in_storage }, none)) := by
  constructor
  · intro fs p cache st tgt stF m h1 h2 hsf hm
    have hex : objExists fs p = true := pathExists_of_statFollow fs p stF hsf
    have hsym : isSymlinkFS fs p = true := by simp [isSymlinkFS, h2]
    have hnf : statNoFollowFS fs p = Except.ok st := by simp [statNoFollowFS, h2, FSEntry.stat]
    simp [inventoryFS, inventory, fsProber, hex, h1, hsym, hnf, hsf, hm]
  · intro fs p cache stF m h1 hsym hsf hm
    have hex : objExists fs p = true := pathExists_of_statFollow fs p stF hsf
    simp [inventoryFS, inventory, fsProber, hex, h1, hsym, hsf, hm]

/-- A symlink (own mtime 50) to a regular file (mtime 60, size 7). -/
def fsLink : FS :=
  [("lnk3", FSEntry.symlink { st_mtime := 50, st_size := 1 } "f3"),
   ("f3", FSEntry.file { st_mtime := 60, st_size := 7 })]

/-- A filesystem holding just a regular file (mtime 60, size 7). -/
def fsFileOnly : FS := [("f4", FSEntry.file { st_mtime := 60, st_size := 7 })]

/-- Witness for C4: on the symlink the cached mtime is the link's own 50
while the size is the target's 7; on the plain file both come from the same
stat (mtime 60, size 7). -/
theorem C4_witness :
    (List.lookup (cache_key "lnk3") cacheEmpty.exists_in_storage = none ∧
     List.lookup "lnk3" fsLink = some (FSEntry.symlink { st_mtime := 50, st_size := 1 } "f3") ∧
     statFollowFS fsLink "lnk3" = Except.ok { st_mtime := 60, st_size := 7 } ∧
     stat_to_mtimeFS fsLink "lnk3" { st_mtime := 50, st_size := 1 } = Except.ok 50 ∧
     inventoryFS fsLink "lnk3" cacheEmpty =
       ({ cacheEmpty with
           mtime := [(cache_key "lnk3", 50)],
           size := [(cache_key "lnk3", 7)],
           exists_in_storage := [(cache_key "lnk3", true)] }, none)) ∧
    (isSymlinkFS fsFileOnly "f4" = false ∧
     inventoryFS fsFileOnly "f4" cacheEmpty =
       ({ cacheEmpty with
           mtime := [(cache_key "f4", 60)],
           size := [(cache_key "f4", 7)],
           exists_in_storage := [(cache_key "f4", true)] }, none)) :=
  ⟨⟨rfl, rfl, rfl, rfl,
    C4_symlink_mtime_source.1 fsLink "lnk3" cacheEmpty { st_mtime := 50, st_size := 1 } "f3"
      { st_mtime := 60, st_size := 7 } 50 rfl rfl rfl rfl⟩,
   ⟨rfl,
    C4_symlink_mtime_source.2 fsFileOnly "f4" cacheEmpty { st_mtime := 60, st_size := 7 } 60
      rfl rfl rfl rfl⟩⟩
